import Mathlib

set_option maxHeartbeats 1000000
set_option linter.unusedVariables false

/-!
Verification development for the `financial_advisor` repository.

The Python sources are shallowly embedded:
* numeric values are exact rationals (`ℚ`);
* Python dicts with string keys become association lists;
* fallible code returns `Except PyErr _`, with one `PyErr` constructor per
  exception site that the source can actually reach (Python `ValueError`
  raised by the `validate_inputs` decorator is `validationError`; the
  `ValueError("Expenses exceed income")` precondition is `domainError`,
  matching the spec's error taxonomy; missing attributes, missing dict keys
  and zero divisions are embedded explicitly).
-/

/-! ### Characters and substring search (Python `in` on lower-cased strings) -/

/-- Lower-case a character list, embedding Python's `str.lower()` (all strings
involved are ASCII). -/
def lowerChars (s : List Char) : List Char := s.map Char.toLower

/-- `charsStart n h` is true when `n` occurs at the start of `h`. -/
def charsStart : List Char → List Char → Bool
  | [], _ => true
  | _ :: _, [] => false
  | a :: as, b :: bs => a == b && charsStart as bs

/-- `charsHave n h` is true when `n` occurs contiguously somewhere in `h`:
the embedding of Python's `needle in haystack` on strings. -/
def charsHave : List Char → List Char → Bool
  | n, [] => charsStart n []
  | n, h :: t => charsStart n (h :: t) || charsHave n t

/-- `containsSub hay needle`: the keyword string `needle` occurs in the
character list `hay`. -/
def containsSub (hay : List Char) (needle : String) : Bool :=
  charsHave needle.data hay

/-! ### Scenario classifier (`FinancialService._detect_financial_scenario`) -/

/-- The keyword table of `_detect_financial_scenario`, in the source's dict
insertion order.  The `"budgeting"` entry is commented out in the source and
is therefore absent here.  The `"tax_calculation_scenarios"` entry of the
source is a *nested dict*; iterating it with
`for keyword in keywords` yields its *keys*, so the effective keyword set for
that scenario is the list of sub-scenario names, reproduced below. -/
def scenario_keywords : List (String × List String) := [
  ("retirement", ["retire", "retirement", "pension", "401k", "ira", "social security"]),
  ("investment", ["invest", "portfolio", "stocks", "bonds", "market", "returns"]),
  ("debt", ["debt", "loan", "mortgage", "credit", "payment", "interest"]),
  ("estate_planning", ["estate", "will", "trust", "inheritance", "beneficiary"]),
  ("tax_planning", ["tax", "deduction", "credit", "write-off", "ira", "filing"]),
  ("insurance", ["insurance", "coverage", "policy", "premium", "claim", "risk"]),
  ("business_finance", ["business", "company", "revenue", "profit", "startup"]),
  ("real_estate", ["property", "real estate", "mortgage", "rent", "housing"]),
  ("tax_calculation_scenarios",
    ["salary_income", "investment_income", "business_income", "rental_income",
     "retirement_income", "deductions", "home_loan_interest", "capital_gains",
     "foreign_income", "tax_compliance", "rebates_and_credits", "inheritance_tax"])]

/-- First-match scan over the keyword table; falls through to `"general"`. -/
def detectAux : List (String × List String) → List Char → String
  | [], _ => "general"
  | (s, kws) :: rest, q =>
      if kws.any (fun kw => containsSub q kw) then s else detectAux rest q

/-- `FinancialService._detect_financial_scenario`: lower-case the query, then
return the first scenario one of whose keywords occurs in it, else
`"general"`. -/
def detect_financial_scenario (query : String) : String :=
  detectAux scenario_keywords (lowerChars query.data)

example : detect_financial_scenario "retire" = "retirement" := by decide
example : detect_financial_scenario "budget" = "general" := by decide
example : detect_financial_scenario
    "I earn 1500000 per annum. Calculate my yearly income tax based on new regime"
    = "tax_planning" := by decide

/-! ### Errors, Python values, calculation results -/

/-- Exceptions the embedded code can raise.  `validationError` is the
`ValueError` raised by the `validate_inputs` decorator on a negative numeric
keyword argument; `domainError` is the `ValueError("Expenses exceed income")`
financial-precondition failure (the spec's `DomainError`); `backendError` and
`artifactError` are the external-collaborator failures of §6/§7 of the spec;
the remaining constructors embed `AttributeError`, `KeyError`,
`ZeroDivisionError`, `TypeError` and body-level `ValueError` at the concrete
sites where the source can raise them. -/
inductive PyErr where
  | validationError : PyErr
  | domainError : PyErr
  | backendError : PyErr
  | artifactError : PyErr
  | attributeError : String → PyErr
  | keyError : String → PyErr
  | zeroDivisionError : PyErr
  | typeError : String → PyErr
  | valueError : String → PyErr
deriving DecidableEq, Repr

/-- A Python value passed in a caller-supplied `context` dict: a number, a
string, or a string-keyed dict of numbers (the shapes the calculators
accept). -/
inductive PyVal where
  | num : ℚ → PyVal
  | str : String → PyVal
  | dict : List (String × ℚ) → PyVal
deriving DecidableEq, Repr

/-- Keyword arguments: the `**context` dict of a calculator invocation. -/
abbrev Kwargs := List (String × PyVal)

/-- A value inside a nested `CalculationResult` dict. -/
inductive CalcVal where
  | num : ℚ → CalcVal
  | str : String → CalcVal
  | boolean : Bool → CalcVal
  | dict : List (String × CalcVal) → CalcVal
  | items : List CalcVal → CalcVal
  | strs : List String → CalcVal

/-- A `CalculationResult`: a nested string-keyed mapping. -/
abbrev Calculations := List (String × CalcVal)

/-- Association-list lookup, embedding Python `d[k]` / `k in d`. -/
def lookupQ : List (String × ℚ) → String → Option ℚ
  | [], _ => none
  | (k, v) :: rest, key => if k = key then some v else lookupQ rest key

/-- Python `ratios[key]`: a missing key raises `KeyError`. -/
def lookupQE (d : List (String × ℚ)) (key : String) : Except PyErr ℚ :=
  match lookupQ d key with
  | some v => Except.ok v
  | none => Except.error (PyErr.keyError key)

/-- Lookup in a nested calculation result. -/
def calcLookup : Calculations → String → Option CalcVal
  | [], _ => none
  | (k, v) :: rest, key => if k = key then some v else calcLookup rest key

/-- Extract the numeric entry `c[k1][k2]` of a calculation result. -/
def calcNumPath (c : Calculations) (k1 k2 : String) : Option ℚ :=
  match calcLookup c k1 with
  | some (CalcVal.dict d) =>
      match calcLookup d k2 with
      | some (CalcVal.num q) => some q
      | _ => none
  | _ => none

/-- `sum(d.values())`. -/
def sumVals (d : List (String × ℚ)) : ℚ :=
  (d.map Prod.snd).sum

/-- `sum(v for k, v in d.items() if k in cats)`. -/
def sumValsIn (d : List (String × ℚ)) (cats : List String) : ℚ :=
  ((d.filter (fun p => cats.contains p.1)).map Prod.snd).sum

/-- Wrap a numeric dict as a `CalcVal`. -/
def dictOfQ (d : List (String × ℚ)) : CalcVal :=
  CalcVal.dict (d.map (fun p => (p.1, CalcVal.num p.2)))

/-- The `validate_inputs` decorator: every keyword argument that is a number
and is negative raises `ValueError` (the spec's `ValidationError`).  String
and dict arguments are not inspected (the source tests
`isinstance(value, (int, float))`), so negative numbers *inside* a dict
argument pass validation. -/
def validateKwargs (kwargs : List (String × PyVal)) : Bool :=
  kwargs.all fun p =>
    match p.2 with
    | PyVal.num q => decide (0 ≤ q)
    | _ => true

/-! ### Stateless calculator helpers (`calculator_services.py`) -/

/-- `FinancialCalculator._calculate_mortgage_payment`.  The source computes
`principal * monthly_rate * (1+monthly_rate)**n / ((1+monthly_rate)**n - 1)`
with **no** guard on the denominator: when `rate = 0` the denominator is `0`
and Python raises `ZeroDivisionError`, embedded as `none`. -/
def calculate_mortgage_payment (principal rate : ℚ) (years : ℕ) : Option ℚ :=
  let monthly_rate : ℚ := rate / 12 / 100
  let num_payments : ℕ := years * 12
  let denom : ℚ := (1 + monthly_rate) ^ num_payments - 1
  if denom = 0 then none
  else some (principal * monthly_rate * (1 + monthly_rate) ^ num_payments / denom)

/-- The inner `calculate_surcharge` helper defined identically inside
`calculate_tax_calculation_scenarios` and `calculate_tax_planning`
(stepped surcharge schedule on income, applied to tax-before-cess). -/
def calculate_surcharge (income tax : ℚ) : ℚ :=
  if 5000000 < income ∧ income ≤ 10000000 then tax * (10 / 100)
  else if 10000000 < income ∧ income ≤ 20000000 then tax * (15 / 100)
  else if 20000000 < income ∧ income ≤ 50000000 then tax * (25 / 100)
  else if 50000000 < income then tax * (37 / 100)
  else 0

/-- `FinancialCalculator._calculate_estate_tax`. -/
def calculate_estate_tax (net_estate : ℚ) : ℚ :=
  if net_estate ≤ 12920000 then 0 else (net_estate - 12920000) * (40 / 100)

example : calculate_mortgage_payment 300000 0 30 = none := by
  norm_num [calculate_mortgage_payment]
example : ∀ tax : ℚ, calculate_surcharge 5000000 tax = 0 := by
  intro tax; norm_num [calculate_surcharge]

/-! ### Budget calculators -/

/-- `FinancialCalculator._generate_budget_recommendations`.  The source
indexes `ratios["essential_ratio"]`, `ratios["debt_ratio"]` and
`ratios["savings_ratio"]` unconditionally and in that order; a ratios dict
missing one of those keys raises `KeyError` (as happens when it is called
from `calculate_budgeting`, which passes a dict keyed
`needs_ratio`/`wants_ratio`/`savings_ratio`). -/
def generate_budget_recommendations (ratios : List (String × ℚ))
    (discretionary_income savings_goals : ℚ) : Except PyErr (List String) :=
  match lookupQ ratios "essential_ratio" with
  | none => Except.error (PyErr.keyError "essential_ratio")
  | some essential =>
    match lookupQ ratios "debt_ratio" with
    | none => Except.error (PyErr.keyError "debt_ratio")
    | some debtR =>
      match lookupQ ratios "savings_ratio" with
      | none => Except.error (PyErr.keyError "savings_ratio")
      | some savingsR =>
        Except.ok
          ((if essential > 50 then ["Consider reducing essential expenses"] else []) ++
           (if debtR > 40 then ["Focus on debt reduction"] else []) ++
           (if savingsR < 20 then ["Increase savings rate"] else []))

/-- `FinancialCalculator._assess_budget_health`.  Python's `or` is
short-circuiting, so `debt_ratio` is only read when the essential ratio is
not above 50. -/
def assess_budget_health (ratios : List (String × ℚ)) : Except PyErr String :=
  match lookupQ ratios "essential_ratio" with
  | none => Except.error (PyErr.keyError "essential_ratio")
  | some essential =>
    if essential > 50 then Except.ok "Needs Attention"
    else
      match lookupQ ratios "debt_ratio" with
      | none => Except.error (PyErr.keyError "debt_ratio")
      | some debtR =>
        if debtR > 40 then Except.ok "Needs Attention"
        else
          match lookupQ ratios "savings_ratio" with
          | none => Except.error (PyErr.keyError "savings_ratio")
          | some savingsR =>
            if savingsR < 20 then Except.ok "Could Improve"
            else Except.ok "Healthy"

/-- `FinancialCalculator.calculate_budgeting` (decorated with
`validate_inputs`).  Checks, in source order: the decorator's negativity
check on the numeric keyword arguments `income` and `savings_goal` (the
`expenses` dict is not inspected); then `total_expenses > income` raises
`ValueError("Expenses exceed income")` — the spec's `DomainError`; then the
50/30/20 ratios divide by `income` (`ZeroDivisionError` when `income = 0`);
finally `_generate_budget_recommendations` is called with the
`needs_ratio`/`wants_ratio`/`savings_ratio` dict and raises
`KeyError("essential_ratio")`, so the assembled result dict is never
returned. -/
def calculate_budgeting (income : ℚ) (expenses : List (String × ℚ))
    (savings_goal : ℚ) : Except PyErr Calculations :=
  if ¬ (0 ≤ income ∧ 0 ≤ savings_goal) then Except.error PyErr.validationError
  else
    let total_expenses := sumVals expenses
    if total_expenses > income then Except.error PyErr.domainError
    else
      let monthly_income := income / 12
      let monthly_expenses := expenses.map (fun p => (p.1, p.2 / 12))
      if income = 0 then Except.error PyErr.zeroDivisionError
      else
        let needs := sumValsIn expenses ["housing", "utilities", "food", "healthcare"]
        let wants := sumValsIn expenses ["entertainment", "shopping", "dining"]
        let savings := income - total_expenses
        let rule_analysis : List (String × ℚ) :=
          [("needs_ratio", needs / income * 100),
           ("wants_ratio", wants / income * 100),
           ("savings_ratio", savings / income * 100)]
        match generate_budget_recommendations rule_analysis savings savings_goal with
        | Except.error e => Except.error e
        | Except.ok recs =>
          Except.ok
            [("income_analysis", CalcVal.dict
                [("annual_income", CalcVal.num income),
                 ("monthly_income", CalcVal.num monthly_income),
                 ("total_expenses", CalcVal.num total_expenses),
                 ("monthly_expenses", CalcVal.num (sumVals monthly_expenses)),
                 ("savings_potential", CalcVal.num savings)]),
             ("expense_breakdown", dictOfQ expenses),
             ("monthly_breakdown", dictOfQ monthly_expenses),
             ("rule_analysis", dictOfQ rule_analysis),
             ("health_indicators", CalcVal.dict
                [("expense_to_income", CalcVal.num (total_expenses / income * 100)),
                 ("savings_to_income", CalcVal.num (savings / income * 100)),
                 ("meets_50_30_20", CalcVal.boolean
                    (decide (needs / income * 100 ≤ 50) &&
                     decide (wants / income * 100 ≤ 30) &&
                     decide (savings / income * 100 ≥ 20)))]),
             ("recommendations", CalcVal.strs recs)]

/-- `FinancialCalculator.calculate_budget`.  This calculator is **not**
decorated with `validate_inputs`, so no negativity check runs.  Its ratio
dict does carry the `essential_ratio`/`debt_ratio`/`savings_ratio` keys, so
health assessment and recommendations succeed and a full result is
returned (a `ZeroDivisionError` only when `monthly_income = 0`). -/
def calculate_budget (monthly_income : ℚ) (expenses : List (String × ℚ))
    (savings_goals debt_payments : Option (List (String × ℚ))) :
    Except PyErr Calculations :=
  let essential := sumValsIn expenses ["housing", "utilities", "food", "healthcare", "insurance"]
  let lifestyle := sumValsIn expenses ["entertainment", "dining", "shopping", "travel"]
  let financial := sumValsIn expenses ["savings", "investments", "debt"]
  let total_expenses := sumVals expenses
  let total_debt_payments := (debt_payments.map sumVals).getD 0
  let total_savings_goals := (savings_goals.map sumVals).getD 0
  if monthly_income = 0 then Except.error PyErr.zeroDivisionError
  else
    let income_ratios : List (String × ℚ) :=
      [("essential_ratio", essential / monthly_income * 100),
       ("lifestyle_ratio", lifestyle / monthly_income * 100),
       ("financial_ratio", financial / monthly_income * 100),
       ("debt_ratio", total_debt_payments / monthly_income * 100),
       ("savings_ratio", total_savings_goals / monthly_income * 100)]
    let discretionary_income := monthly_income - essential - total_debt_payments
    match assess_budget_health income_ratios with
    | Except.error e => Except.error e
    | Except.ok health =>
      match generate_budget_recommendations income_ratios discretionary_income
          total_savings_goals with
      | Except.error e => Except.error e
      | Except.ok recs =>
        Except.ok
          [("income_summary", CalcVal.dict
              [("monthly_income", CalcVal.num monthly_income),
               ("total_expenses", CalcVal.num total_expenses),
               ("discretionary_income", CalcVal.num discretionary_income)]),
           ("expense_breakdown", CalcVal.dict
              [("essential", CalcVal.num essential),
               ("lifestyle", CalcVal.num lifestyle),
               ("financial", CalcVal.num financial)]),
           ("detailed_expenses", dictOfQ expenses),
           ("financial_ratios", dictOfQ income_ratios),
           ("budget_health", CalcVal.str health),
           ("recommendations", CalcVal.strs recs)]

example :
    calculate_budgeting 100 [("housing", 40)] 0
      = Except.error (PyErr.keyError "essential_ratio") := by
  simp only [calculate_budgeting]
  norm_num [sumVals, sumValsIn]
  simp [generate_budget_recommendations, lookupQ]
example :
    (calculate_budget (-1000) [] none none).toOption.isSome = true := by
  norm_num [calculate_budget, assess_budget_health,
    generate_budget_recommendations, lookupQE, lookupQ, sumVals, sumValsIn,
    Except.toOption]

/-! ### Retirement calculator -/

/-- Decorator check for an optional numeric keyword argument. -/
def optNonneg : Option ℚ → Bool
  | none => true
  | some d => decide (0 ≤ d)

/-- Modelled from the spec: `_generate_retirement_projection` is called by
`calculate_retirement` but its definition is nowhere under `src/` (the
repository's own tests expect retirement calculations to succeed, so the
helper is repository code missing from the snapshot).  §4.2 describes it as
"a yearly projection table (one row per year: opening balance,
contributions, growth, closing balance)"; modelled accordingly: each year
opens with the running balance, adds twelve monthly contributions, and
grows at the real rate. -/
def generate_retirement_projection (monthly_contribution real_return : ℚ) :
    ℚ → ℕ → ℕ → List CalcVal
  | _, _, 0 => []
  | opening, year, Nat.succ remaining =>
    let contributions := monthly_contribution * 12
    let growth := (opening + contributions) * real_return
    let closing := opening + contributions + growth
    CalcVal.dict
      [("year", CalcVal.num (year : ℚ)),
       ("opening_balance", CalcVal.num opening),
       ("contributions", CalcVal.num contributions),
       ("growth", CalcVal.num growth),
       ("closing_balance", CalcVal.num closing)] ::
      generate_retirement_projection monthly_contribution real_return closing
        (year + 1) remaining

/-- Modelled from the spec: `_assess_retirement_readiness` is called by
`calculate_retirement` but its definition is nowhere under `src/`, and the
spec does not describe it beyond its membership in the retirement result;
modelled as a qualitative label comparing 4%-rule income from the projected
savings against the desired retirement income when one is supplied. -/
def assess_retirement_readiness (total_retirement_savings : ℚ)
    (desired_retirement_income : Option ℚ) (years_to_retirement : ℤ) : CalcVal :=
  match desired_retirement_income with
  | none => CalcVal.str "no income target provided"
  | some target =>
    if target ≤ total_retirement_savings * (4 / 100) then CalcVal.str "on track"
    else CalcVal.str "needs attention"

/-- `FinancialCalculator.calculate_retirement` (decorated with
`validate_inputs`).  After the decorator's negativity check, the body:
computes `years_to_retirement` and the inflation-adjusted
`real_return = (1+er/100)/(1+ir/100) - 1`; raises `ZeroDivisionError` at
`future_contributions` when `real_return = 0` (i.e. when
`expected_return = inflation_rate`); raises `ZeroDivisionError` at
`savings_growth_multiple` when `current_savings + total_contributions = 0`;
otherwise returns the assembled result (projection and readiness helpers
are modelled from the spec, see their doc comments). -/
def calculate_retirement (current_age retirement_age : ℤ)
    (current_savings monthly_contribution expected_return inflation_rate : ℚ)
    (desired_retirement_income : Option ℚ) : Except PyErr Calculations :=
  if ¬ (0 ≤ current_age ∧ 0 ≤ retirement_age ∧ 0 ≤ current_savings ∧
        0 ≤ monthly_contribution ∧ 0 ≤ expected_return ∧ 0 ≤ inflation_rate ∧
        optNonneg desired_retirement_income = true) then
    Except.error PyErr.validationError
  else
    let years_to_retirement : ℤ := retirement_age - current_age
    let real_return : ℚ :=
      (1 + expected_return / 100) / (1 + inflation_rate / 100) - 1
    let monthly_savings : ℚ := monthly_contribution * 12
    let total_contributions : ℚ := monthly_savings * (years_to_retirement : ℚ)
    let future_savings : ℚ :=
      current_savings * (1 + real_return) ^ years_to_retirement
    if real_return = 0 then Except.error PyErr.zeroDivisionError
    else
      let future_contributions : ℚ :=
        monthly_savings * (((1 + real_return) ^ years_to_retirement - 1) / real_return)
      let total_retirement_savings : ℚ := future_savings + future_contributions
      if current_savings + total_contributions = 0 then
        Except.error PyErr.zeroDivisionError
      else
        Except.ok
          [("timing", CalcVal.dict
              [("current_age", CalcVal.num (current_age : ℚ)),
               ("retirement_age", CalcVal.num (retirement_age : ℚ)),
               ("years_to_retirement", CalcVal.num (years_to_retirement : ℚ))]),
           ("savings_analysis", CalcVal.dict
              [("current_savings", CalcVal.num current_savings),
               ("monthly_contribution", CalcVal.num monthly_contribution),
               ("total_contributions", CalcVal.num total_contributions),
               ("future_value", CalcVal.num total_retirement_savings)]),
           ("financial_metrics", CalcVal.dict
              [("real_return_rate", CalcVal.num (real_return * 100)),
               ("inflation_adjusted_return", CalcVal.num (expected_return - inflation_rate)),
               ("savings_growth_multiple", CalcVal.num
                  (total_retirement_savings / (current_savings + total_contributions)))]),
           ("monthly_retirement_income", CalcVal.num (total_retirement_savings / (25 * 12))),
           ("yearly_projection", CalcVal.items
              (generate_retirement_projection monthly_contribution real_return
                current_savings 0 years_to_retirement.toNat)),
           ("retirement_readiness",
              assess_retirement_readiness total_retirement_savings
                desired_retirement_income years_to_retirement)]

/-! ### Tax calculators -/

/-- `FinancialCalculator.calculate_tax_calculation_scenarios` (decorated
with `validate_inputs`).  After the decorator's negativity check and the
body's two input checks, the source calls
`super().calculate_tax_calculation_scenarios(...)`; `FinancialCalculator`'s
only base class is `object`, which has no such attribute, so the call
raises `AttributeError` and the regime analysis below it (surcharge,
effective rate, monthly liability, take-home) is unreachable. -/
def calculate_tax_calculation_scenarios (annual_income : ℚ) (tax_regime : String)
    (deductions investments : Option (List (String × ℚ))) :
    Except PyErr Calculations :=
  if ¬ (0 ≤ annual_income) then Except.error PyErr.validationError
  else if annual_income ≤ 0 then
    Except.error (PyErr.valueError "Annual income must be positive")
  else if ¬ (tax_regime = "old" ∨ tax_regime = "new") then
    Except.error (PyErr.valueError "Invalid tax regime")
  else Except.error (PyErr.attributeError "calculate_tax_calculation_scenarios")

/-- `FinancialCalculator.calculate_tax_planning`: textually identical to
`calculate_tax_calculation_scenarios`, including the
`super().calculate_tax_calculation_scenarios(...)` call that raises
`AttributeError` for every input passing the two checks. -/
def calculate_tax_planning (annual_income : ℚ) (tax_regime : String)
    (deductions investments : Option (List (String × ℚ))) :
    Except PyErr Calculations :=
  if ¬ (0 ≤ annual_income) then Except.error PyErr.validationError
  else if annual_income ≤ 0 then
    Except.error (PyErr.valueError "Annual income must be positive")
  else if ¬ (tax_regime = "old" ∨ tax_regime = "new") then
    Except.error (PyErr.valueError "Invalid tax regime")
  else Except.error (PyErr.attributeError "calculate_tax_calculation_scenarios")

/-! ### Remaining calculators reached through dynamic dispatch -/

/-- `FinancialCalculator.calculate_investment` (decorated).  The risk
profile is looked up in the `risk_returns` dict (`KeyError` on an unknown
profile); the first computation after the lookup calls
`self._calculate_future_value`, which is not defined anywhere under `src/`
and is not needed by any claim, so the faithful embedding of the method as
it stands raises `AttributeError` there. -/
def calculate_investment (portfolio_value monthly_contribution : ℚ)
    (time_horizon : ℤ) (risk_profile : String) (target_amount : Option ℚ) :
    Except PyErr Calculations :=
  if ¬ (0 ≤ portfolio_value ∧ 0 ≤ monthly_contribution ∧ 0 ≤ time_horizon ∧
        optNonneg target_amount = true) then
    Except.error PyErr.validationError
  else if ¬ (risk_profile = "conservative" ∨ risk_profile = "moderate" ∨
             risk_profile = "aggressive") then
    Except.error (PyErr.keyError risk_profile)
  else Except.error (PyErr.attributeError "_calculate_future_value")

/-- `FinancialCalculator.calculate_insurance` (decorated).  Every
computation up to the result dict is pure arithmetic; the result dict's
last entry calls `self._assess_insurance_risk`, which is not defined
anywhere under `src/` and is not needed by any claim, so the faithful
embedding of the method as it stands raises `AttributeError` there. -/
def calculate_insurance (annual_income : ℚ) (age dependents years_income_needed : ℤ)
    (current_savings total_debt education_needs : ℚ) (medical_history : String)
    (existing_coverage : Option (List (String × ℚ))) : Except PyErr Calculations :=
  if ¬ (0 ≤ annual_income ∧ 0 ≤ age ∧ 0 ≤ dependents ∧ 0 ≤ years_income_needed ∧
        0 ≤ current_savings ∧ 0 ≤ total_debt ∧ 0 ≤ education_needs) then
    Except.error PyErr.validationError
  else Except.error (PyErr.attributeError "_assess_insurance_risk")

/-- `FinancialCalculator.calculate_estate_planning` (NOT decorated with
`validate_inputs`; all helpers present, so it completes). -/
def calculate_estate_planning (assets liabilities : List (String × ℚ))
    (beneficiaries : ℤ) : Except PyErr Calculations :=
  let total_assets := sumVals assets
  let total_liabilities := sumVals liabilities
  let net_estate := total_assets - total_liabilities
  let estate_tax := calculate_estate_tax net_estate
  let per_beneficiary : ℚ :=
    if 0 < beneficiaries then (net_estate - estate_tax) / (beneficiaries : ℚ) else 0
  Except.ok
    [("total_assets", CalcVal.num total_assets),
     ("total_liabilities", CalcVal.num total_liabilities),
     ("net_estate", CalcVal.num net_estate),
     ("estate_tax", CalcVal.num estate_tax),
     ("per_beneficiary_amount", CalcVal.num per_beneficiary),
     ("asset_breakdown", dictOfQ assets),
     ("liability_breakdown", dictOfQ liabilities)]

/-- `FinancialCalculator.calculate_real_estate` (decorated).  In source
order: `_calculate_mortgage_payment` raises `ZeroDivisionError` when its
denominator vanishes (`interest_rate = 0` or `term_years = 0`); the result
dict's `down_payment_percentage` divides by `property_value` unguarded;
`operating_expenses_ratio` divides by the effective rental income when
`rental_income > 0`; and the `roi_analysis` entry calls
`self._calculate_real_estate_roi`, which is not defined anywhere under
`src/` and is not needed by any claim, so the faithful embedding of the
method as it stands raises `AttributeError` there. -/
def calculate_real_estate (property_value down_payment interest_rate : ℚ)
    (term_years : ℕ)
    (rental_income property_tax_rate maintenance_rate appreciation_rate
     vacancy_rate insurance_cost : ℚ) : Except PyErr Calculations :=
  if ¬ (0 ≤ property_value ∧ 0 ≤ down_payment ∧ 0 ≤ interest_rate ∧
        0 ≤ rental_income ∧ 0 ≤ property_tax_rate ∧ 0 ≤ maintenance_rate ∧
        0 ≤ appreciation_rate ∧ 0 ≤ vacancy_rate ∧ 0 ≤ insurance_cost) then
    Except.error PyErr.validationError
  else
    let loan_amount := property_value - down_payment
    match calculate_mortgage_payment loan_amount interest_rate term_years with
    | none => Except.error PyErr.zeroDivisionError
    | some monthly_payment =>
      if property_value = 0 then Except.error PyErr.zeroDivisionError
      else if rental_income > 0 ∧ rental_income * (1 - vacancy_rate) = 0 then
        Except.error PyErr.zeroDivisionError
      else Except.error (PyErr.attributeError "_calculate_real_estate_roi")

example :
    calculate_retirement 30 31 100 0 0 100 none ≠ Except.error PyErr.validationError := by
  norm_num [calculate_retirement, optNonneg]
  exact fun h => Except.noConfusion h

/-! ### Keyword-argument binding for `calc_method(**context)` -/

/-- Error-propagating bind on `Except`, written as a plain match so concrete
invocations reduce under `simp`. -/
def exBind {α β : Type} : Except PyErr α → (α → Except PyErr β) → Except PyErr β
  | Except.error e, _ => Except.error e
  | Except.ok a, f => f a

/-- `kwargs[name]` lookup. -/
def kwLookup : List (String × PyVal) → String → Option PyVal
  | [], _ => none
  | (k, v) :: rest, key => if k = key then some v else kwLookup rest key

/-- Python raises `TypeError` when a call supplies a keyword the function
signature does not declare. -/
def kwKeysIn (kw : List (String × PyVal)) (allowed : List String) : Bool :=
  kw.all (fun p => allowed.contains p.1)

/-- Required numeric parameter: absent or non-numeric raises `TypeError`
(absence at binding; a wrong type at its first arithmetic use — collapsed to
the binding site as a modelling boundary). -/
def kwNum (kw : List (String × PyVal)) (name : String) : Except PyErr ℚ :=
  match kwLookup kw name with
  | some (PyVal.num q) => Except.ok q
  | _ => Except.error (PyErr.typeError name)

/-- Numeric parameter with a default. -/
def kwNumD (kw : List (String × PyVal)) (name : String) (dft : ℚ) : Except PyErr ℚ :=
  match kwLookup kw name with
  | some (PyVal.num q) => Except.ok q
  | none => Except.ok dft
  | some _ => Except.error (PyErr.typeError name)

/-- Optional numeric parameter defaulting to `None`. -/
def kwNumOpt (kw : List (String × PyVal)) (name : String) : Except PyErr (Option ℚ) :=
  match kwLookup kw name with
  | some (PyVal.num q) => Except.ok (some q)
  | none => Except.ok none
  | some _ => Except.error (PyErr.typeError name)

/-- Required integer-annotated parameter.  Python does not enforce the
`int` annotation; a non-integral number would push the computation into
real-valued powers, outside this rational embedding, so integrality is a
modelling boundary enforced here. -/
def kwInt (kw : List (String × PyVal)) (name : String) : Except PyErr ℤ :=
  match kwLookup kw name with
  | some (PyVal.num q) => if q.den = 1 then Except.ok q.num else Except.error (PyErr.typeError name)
  | _ => Except.error (PyErr.typeError name)

/-- Integer-annotated parameter with a default. -/
def kwIntD (kw : List (String × PyVal)) (name : String) (dft : ℤ) : Except PyErr ℤ :=
  match kwLookup kw name with
  | some (PyVal.num q) => if q.den = 1 then Except.ok q.num else Except.error (PyErr.typeError name)
  | none => Except.ok dft
  | some _ => Except.error (PyErr.typeError name)

/-- Required dict parameter. -/
def kwDict (kw : List (String × PyVal)) (name : String) :
    Except PyErr (List (String × ℚ)) :=
  match kwLookup kw name with
  | some (PyVal.dict d) => Except.ok d
  | _ => Except.error (PyErr.typeError name)

/-- Optional dict parameter defaulting to `None`. -/
def kwDictOpt (kw : List (String × PyVal)) (name : String) :
    Except PyErr (Option (List (String × ℚ))) :=
  match kwLookup kw name with
  | some (PyVal.dict d) => Except.ok (some d)
  | none => Except.ok none
  | some _ => Except.error (PyErr.typeError name)

/-- String parameter with a default. -/
def kwStrD (kw : List (String × PyVal)) (name dft : String) : Except PyErr String :=
  match kwLookup kw name with
  | some (PyVal.str s) => Except.ok s
  | none => Except.ok dft
  | some _ => Except.error (PyErr.typeError name)

/-- The `validate_inputs` wrapper applied ahead of keyword binding (the
decorator receives `**kwargs` unbound, validates, then calls the wrapped
function, where binding errors surface). -/
def pyValidated (kw : List (String × PyVal)) (allowed : List String)
    (body : Except PyErr Calculations) : Except PyErr Calculations :=
  if validateKwargs kw = false then Except.error PyErr.validationError
  else if kwKeysIn kw allowed = false then
    Except.error (PyErr.typeError "unexpected keyword argument")
  else body

/-- Keyword-call form of `calculate_budgeting`. -/
def calculate_budgeting_kw (kw : List (String × PyVal)) : Except PyErr Calculations :=
  pyValidated kw ["income", "expenses", "savings_goal"] <|
    exBind (kwNum kw "income") fun income =>
    exBind (kwDict kw "expenses") fun expenses =>
    exBind (kwNumD kw "savings_goal" 0) fun savings_goal =>
    calculate_budgeting income expenses savings_goal

/-- Keyword-call form of `calculate_retirement`. -/
def calculate_retirement_kw (kw : List (String × PyVal)) : Except PyErr Calculations :=
  pyValidated kw
    ["current_age", "retirement_age", "current_savings", "monthly_contribution",
     "expected_return", "inflation_rate", "desired_retirement_income"] <|
    exBind (kwInt kw "current_age") fun current_age =>
    exBind (kwInt kw "retirement_age") fun retirement_age =>
    exBind (kwNum kw "current_savings") fun current_savings =>
    exBind (kwNum kw "monthly_contribution") fun monthly_contribution =>
    exBind (kwNumD kw "expected_return" 7) fun expected_return =>
    exBind (kwNumD kw "inflation_rate" 3) fun inflation_rate =>
    exBind (kwNumOpt kw "desired_retirement_income") fun desired =>
    calculate_retirement current_age retirement_age current_savings
      monthly_contribution expected_return inflation_rate desired

/-- Keyword-call form of `calculate_tax_calculation_scenarios`. -/
def calculate_tax_calculation_scenarios_kw (kw : List (String × PyVal)) :
    Except PyErr Calculations :=
  pyValidated kw ["annual_income", "tax_regime", "deductions", "investments"] <|
    exBind (kwNum kw "annual_income") fun annual_income =>
    exBind (kwStrD kw "tax_regime" "new") fun tax_regime =>
    exBind (kwDictOpt kw "deductions") fun deductions =>
    exBind (kwDictOpt kw "investments") fun investments =>
    calculate_tax_calculation_scenarios annual_income tax_regime deductions investments

/-- Keyword-call form of `calculate_tax_planning`. -/
def calculate_tax_planning_kw (kw : List (String × PyVal)) : Except PyErr Calculations :=
  pyValidated kw ["annual_income", "tax_regime", "deductions", "investments"] <|
    exBind (kwNum kw "annual_income") fun annual_income =>
    exBind (kwStrD kw "tax_regime" "new") fun tax_regime =>
    exBind (kwDictOpt kw "deductions") fun deductions =>
    exBind (kwDictOpt kw "investments") fun investments =>
    calculate_tax_planning annual_income tax_regime deductions investments

/-- Keyword-call form of `calculate_investment`. -/
def calculate_investment_kw (kw : List (String × PyVal)) : Except PyErr Calculations :=
  pyValidated kw
    ["portfolio_value", "monthly_contribution", "time_horizon", "risk_profile",
     "target_amount"] <|
    exBind (kwNum kw "portfolio_value") fun portfolio_value =>
    exBind (kwNum kw "monthly_contribution") fun monthly_contribution =>
    exBind (kwInt kw "time_horizon") fun time_horizon =>
    exBind (kwStrD kw "risk_profile" "moderate") fun risk_profile =>
    exBind (kwNumOpt kw "target_amount") fun target_amount =>
    calculate_investment portfolio_value monthly_contribution time_horizon
      risk_profile target_amount

/-- Keyword-call form of `calculate_insurance`. -/
def calculate_insurance_kw (kw : List (String × PyVal)) : Except PyErr Calculations :=
  pyValidated kw
    ["annual_income", "age", "dependents", "years_income_needed", "current_savings",
     "total_debt", "education_needs", "medical_history", "existing_coverage"] <|
    exBind (kwNum kw "annual_income") fun annual_income =>
    exBind (kwInt kw "age") fun age =>
    exBind (kwIntD kw "dependents" 0) fun dependents =>
    exBind (kwIntD kw "years_income_needed" 20) fun years_income_needed =>
    exBind (kwNumD kw "current_savings" 0) fun current_savings =>
    exBind (kwNumD kw "total_debt" 0) fun total_debt =>
    exBind (kwNumD kw "education_needs" 0) fun education_needs =>
    exBind (kwStrD kw "medical_history" "standard") fun medical_history =>
    exBind (kwDictOpt kw "existing_coverage") fun existing_coverage =>
    calculate_insurance annual_income age dependents years_income_needed
      current_savings total_debt education_needs medical_history existing_coverage

/-- Keyword-call form of `calculate_estate_planning` (no decorator: binding
errors only). -/
def calculate_estate_planning_kw (kw : List (String × PyVal)) : Except PyErr Calculations :=
  if kwKeysIn kw ["assets", "liabilities", "beneficiaries"] = false then
    Except.error (PyErr.typeError "unexpected keyword argument")
  else
    exBind (kwDict kw "assets") fun assets =>
    exBind (kwDict kw "liabilities") fun liabilities =>
    exBind (kwInt kw "beneficiaries") fun beneficiaries =>
    calculate_estate_planning assets liabilities beneficiaries

/-- Keyword-call form of `calculate_real_estate`. -/
def calculate_real_estate_kw (kw : List (String × PyVal)) : Except PyErr Calculations :=
  pyValidated kw
    ["property_value", "down_payment", "interest_rate", "term_years",
     "rental_income", "property_tax_rate", "maintenance_rate",
     "appreciation_rate", "vacancy_rate", "insurance_cost"] <|
    exBind (kwNum kw "property_value") fun property_value =>
    exBind (kwNum kw "down_payment") fun down_payment =>
    exBind (kwNum kw "interest_rate") fun interest_rate =>
    exBind (kwInt kw "term_years") fun term_years =>
    exBind (kwNumD kw "rental_income" 0) fun rental_income =>
    exBind (kwNumD kw "property_tax_rate" (1 / 100)) fun property_tax_rate =>
    exBind (kwNumD kw "maintenance_rate" (1 / 100)) fun maintenance_rate =>
    exBind (kwNumD kw "appreciation_rate" (3 / 100)) fun appreciation_rate =>
    exBind (kwNumD kw "vacancy_rate" (8 / 100)) fun vacancy_rate =>
    exBind (kwNumD kw "insurance_cost" 0) fun insurance_cost =>
    calculate_real_estate property_value down_payment interest_rate
      term_years.toNat rental_income property_tax_rate maintenance_rate
      appreciation_rate vacancy_rate insurance_cost

/-- Keyword-call form of `calculate_budget` (no decorator). -/
def calculate_budget_kw (kw : List (String × PyVal)) : Except PyErr Calculations :=
  if kwKeysIn kw ["monthly_income", "expenses", "savings_goals", "debt_payments"] = false then
    Except.error (PyErr.typeError "unexpected keyword argument")
  else
    exBind (kwNum kw "monthly_income") fun monthly_income =>
    exBind (kwDict kw "expenses") fun expenses =>
    exBind (kwDictOpt kw "savings_goals") fun savings_goals =>
    exBind (kwDictOpt kw "debt_payments") fun debt_payments =>
    calculate_budget monthly_income expenses savings_goals debt_payments

/-- `getattr(self.financial_calculator, f"calculate_{scenario_type}", None)`:
the closed table of `calculate_*` methods on `FinancialCalculator`. -/
def calcDispatch : String → Option (List (String × PyVal) → Except PyErr Calculations)
  | "budgeting" => some calculate_budgeting_kw
  | "retirement" => some calculate_retirement_kw
  | "estate_planning" => some calculate_estate_planning_kw
  | "real_estate" => some calculate_real_estate_kw
  | "investment" => some calculate_investment_kw
  | "budget" => some calculate_budget_kw
  | "tax_calculation_scenarios" => some calculate_tax_calculation_scenarios_kw
  | "tax_planning" => some calculate_tax_planning_kw
  | "insurance" => some calculate_insurance_kw
  | _ => none

/-! ### Context enricher (`FinancialService._get_enhanced_context`) -/

/-- `FinancialService._get_enhanced_context`: a pure lookup keyed by
scenario with a generic fallback.  The bullet text of each entry is
transcribed with the source's words; the Python literals' leading
indentation whitespace is not reproduced (no claim inspects the prompt
text). -/
def get_enhanced_context (scenario_type : String) : String :=
  match scenario_type with
  | "retirement" =>
      "Consider retirement planning factors:\n- Current age and timeline\n- Savings and contributions\n- Investment strategy\n- Risk tolerance\n- Social Security benefits\n- Healthcare costs\n- Required Minimum Distributions"
  | "investment" =>
      "Consider investment factors:\n- Risk tolerance and goals\n- Time horizon\n- Asset allocation\n- Market conditions\n- Diversification needs\n- Tax implications"
  | "debt" =>
      "Consider debt management factors:\n- Outstanding balances\n- Interest rates\n- Minimum payments\n- Debt consolidation options\n- Credit score impact\n- Repayment strategies"
  | "budgeting" =>
      "Consider budgeting factors:\n- Income sources\n- Essential expenses\n- Discretionary spending\n- Savings goals\n- Emergency fund\n- Debt obligations"
  | "estate_planning" =>
      "Consider estate planning factors:\n- Asset inventory\n- Beneficiary designations\n- Will and trusts\n- Tax implications\n- Healthcare directives\n- Power of attorney"
  | "insurance" =>
      "Consider insurance planning factors:\n- Coverage types needed\n- Risk assessment\n- Policy comparison\n- Premium costs\n- Beneficiary designations\n- Claims process"
  | "business_finance" =>
      "Consider business financial factors:\n- Revenue streams\n- Operating costs\n- Cash flow management\n- Business structure\n- Tax considerations\n- Growth planning"
  | "real_estate" =>
      "Consider real estate factors:\n- Property values\n- Mortgage options\n- Rental income\n- Maintenance costs\n- Tax implications\n- Market conditions"
  | "tax_calculation_scenarios" =>
      "Consider the following tax calculation factors:\n- Income sources (salary, business, investments, etc.)\n- Tax deductions (Section 80C, 80D, etc.)\n- Exemptions (HRA, LTA, etc.)\n- Capital gains (short-term, long-term, indexed, non-indexed)\n- Tax slabs and rates for different income brackets\n- Rebates and credits (Section 87A)\n- Tax-saving investments (PPF, ELSS, NSC, etc.)\n- Deductions for interest on home loans (Section 24)\n- Compliance and filing deadlines\n- Surcharge and cess calculations\n- New tax regime (2024-25)\n- Tax implications of new tax regime\n- Old tax regime (2024-25)\n- Tax implications of old tax regime\n- Calculation of tax based on new and old tax regime"
  | "tax_planning" =>
      "Consider tax planning factors:\n- Income sources\n- Tax brackets\n- Deductions and credits\n- Investment tax impact\n- Retirement account strategies\n- Estate tax considerations"
  | _ => "General financial planning considerations"

/-! ### RAG engine (`src/rag/engine.py`) -/

/-- One message of `ConversationBufferMemory.chat_memory.messages`; a
conversation turn per the spec's data model. -/
inductive Msg where
  | human : String → Msg
  | ai : String → Msg
deriving DecidableEq, Repr

/-- The value of `self.qa_chain(chain_input)` on success. -/
structure ChainResult where
  answer : String
  source_documents : List String
deriving DecidableEq, Repr

/-- A bundle of named chart objects (§6 of the spec); opaque to the core. -/
abbrev Viz := List (String × String)

/-- The dict returned by `RAGEngine.query`. -/
structure QueryResponse where
  answer : String
  sources : List String
  scenario_type : String
  calculations : Calculations
  chat_history : List Msg
  follow_up_questions : List String
  visualizations : Option Viz
  report_path : Option String
  is_followup : Bool

/-- Decimal rendering, abbreviated (see `formatCalculations`). -/
def ratToString (q : ℚ) : String :=
  toString q.num ++ "/" ++ toString q.den

/-- `RAGEngine._format_calculations`: renders top-level numeric entries and
one level of nested dicts; other value shapes are skipped at top level
exactly as in the source (which only handles `int`/`float` and `dict`).
The numeric rendering (Python's `₹{v:,.2f}`) is abbreviated to an exact
rational rendering; no claim inspects the produced text. -/
def formatCalculations (calculations : Calculations) : String :=
  if calculations.isEmpty then ""
  else
    "\nFinancial Analysis:\n" ++
      String.join (calculations.map fun p =>
        match p.2 with
        | CalcVal.num q => p.1 ++ ": ₹" ++ ratToString q ++ "\n"
        | CalcVal.dict d =>
            "\n" ++ p.1 ++ ":\n" ++
              String.join (d.map fun e =>
                "  " ++ e.1 ++ ": " ++
                  (match e.2 with
                   | CalcVal.num r => "₹" ++ ratToString r
                   | CalcVal.str s => s
                   | CalcVal.boolean b => toString b
                   | _ => "...") ++ "\n")
        | _ => "")

/-- `RAGEngine._generate_follow_up_questions`: the fixed `base_questions`
table (note its keys `"tax"` — which no classifier output equals — and the
absence of several scenario names), the `.get` fallback, the two
calculation-keyed extra questions, and the `[:3]` truncation. -/
def generate_follow_up_questions (scenario_type original_question : String)
    (calculations : Calculations) : List String :=
  let base : Option (List String) :=
    match scenario_type with
    | "retirement" => some
        ["Would you like to explore how changing your retirement age affects these calculations?",
         "Should we analyze different investment risk levels for your retirement portfolio?",
         "Would you like to see how inflation might impact your retirement savings?"]
    | "investment" => some
        ["Would you like to see how different asset allocations might affect your returns?",
         "Should we analyze the tax implications of these investments?",
         "Would you like to explore different investment timeframes?"]
    | "debt" => some
        ["Would you like to see how accelerated payments would affect your debt payoff timeline?",
         "Should we compare different debt repayment strategies?",
         "Would you like to analyze debt consolidation options?"]
    | "tax" => some
        ["Would you like to explore potential tax deductions you might be eligible for?",
         "Should we analyze different tax-advantaged investment options?",
         "Would you like to see how changes in income might affect your tax situation?"]
    | "insurance" => some
        ["Would you like to compare different insurance coverage levels?",
         "Should we analyze how your insurance needs might change over time?",
         "Would you like to explore other types of insurance coverage?"]
    | "estate_planning" => some
        ["Would you like to explore different trust options?",
         "Should we analyze the tax implications of your estate plan?",
         "Would you like to review beneficiary designation strategies?"]
    | _ => none
  let follow_ups := base.getD
    ["Would you like more detailed analysis?",
     "Should we explore specific aspects of this topic?",
     "Would you like to see additional calculations?"]
  let follow_ups :=
    if calculations.isEmpty then follow_ups
    else
      (follow_ups ++
        (if (calcLookup calculations "total_amount").isSome then
          ["Would you like to see a breakdown of the " ++ scenario_type ++ " calculations?"]
         else []) ++
        (if (calcLookup calculations "projected_values").isSome then
          ["Would you like to explore different projection scenarios?"]
         else []))
  follow_ups.take 3

/-- `RAGEngine._generate_visualizations`: returns `None` without calling
the collaborator when there are no calculations; an exception raised by the
collaborator is logged and swallowed into `None`. -/
def generate_visualizations
    (vizSvc : String → Calculations → Except PyErr (Option Viz))
    (scenario_type : String) (calculations : Calculations) : Option Viz :=
  if calculations.isEmpty then none
  else
    match vizSvc scenario_type calculations with
    | Except.ok v => v
    | Except.error _ => none

/-- `RAGEngine._generate_report`: returns `None` without calling the
collaborator when there are neither calculations nor visualizations; an
exception raised by the collaborator is logged and swallowed into `None`. -/
def generate_report
    (repSvc : String → String → String → Calculations → Option Viz → Except PyErr String)
    (scenario_type question answer : String) (calculations : Calculations)
    (visualizations : Option Viz) : Option String :=
  if calculations.isEmpty ∧ visualizations.isNone then none
  else
    match repSvc scenario_type question answer calculations visualizations with
    | Except.ok p => some p
    | Except.error _ => none

/-- The calculation stage of `RAGEngine.query`: `if context:` (a missing or
empty context dict skips calculations), then
`getattr(self.financial_calculator, f"calculate_{scenario_type}", None)`
(embedded by `calcDispatch`; `None` skips), then `calc_method(**context)`,
whose exceptions propagate. -/
def calcStep (scenario_type : String) (context : Option Kwargs) :
    Except PyErr Calculations :=
  match context with
  | none => Except.ok []
  | some kw =>
    if kw.isEmpty then Except.ok []
    else
      match calcDispatch scenario_type with
      | none => Except.ok []
      | some f => f kw

/-- The `combined_context` f-string of `RAGEngine.query`. -/
def combinedContext (scenario_type enhanced_context calculations_text : String) : String :=
  "\nScenario Type: " ++ scenario_type ++
  "\nEnhanced Context: " ++ enhanced_context ++
  "\nCalculations: " ++ calculations_text ++ "\n"

/-- `RAGEngine.query`.  External collaborators are parameters: `chain` is
the `self.qa_chain(chain_input)` call (retriever plus completion backend; a
raise there is the spec's `BackendError`), `vizSvc` and `repSvc` are the
visualization and report collaborators of §6.  The pair returned is the
state of the conversation memory (`self.memory.chat_memory.messages`) after
the call together with the outcome; when an exception propagates (the
`except` clause logs and re-raises, and the `handle_errors` decorator
re-raises again) the memory is returned as it stood at that point.  The
only memory write in `query` is `self.memory.save_context(...)`, which
appends the human/ai turn pair and happens *after* the chain call
succeeds. -/
def queryEngine
    (chain : String → String → Except PyErr ChainResult)
    (vizSvc : String → Calculations → Except PyErr (Option Viz))
    (repSvc : String → String → String → Calculations → Option Viz → Except PyErr String)
    (question : String) (context : Option Kwargs) (mem : List Msg) :
    List Msg × Except PyErr QueryResponse :=
  let scenario_type := detect_financial_scenario question
  let enhanced_context := get_enhanced_context scenario_type
  match calcStep scenario_type context with
  | Except.error e => (mem, Except.error e)
  | Except.ok calculations =>
    let calculations_text := formatCalculations calculations
    match chain question (combinedContext scenario_type enhanced_context calculations_text) with
    | Except.error e => (mem, Except.error e)
    | Except.ok result =>
      let memAfter := mem ++ [Msg.human question, Msg.ai result.answer]
      let visualizations := generate_visualizations vizSvc scenario_type calculations
      let report_path :=
        generate_report repSvc scenario_type question result.answer calculations visualizations
      (memAfter, Except.ok
        { answer := result.answer
          sources := result.source_documents
          scenario_type := scenario_type
          calculations := calculations
          chat_history := memAfter
          follow_up_questions :=
            generate_follow_up_questions scenario_type question calculations
          visualizations := visualizations
          report_path := report_path
          is_followup := !memAfter.isEmpty })

/-- `RAGEngine.reset_memory` / `ConversationBufferMemory.clear`. -/
def resetMemory (mem : List Msg) : List Msg := []

/-! ### Claim theorems -/

/-- C5: in the tax calculators' surcharge computation, an annual income of
exactly 5,000,000 yields zero surcharge, and an annual income of 5,000,001
yields a surcharge of 10% of the tax before cess (the first tier). -/
theorem surcharge_boundary (tax : ℚ) :
    calculate_surcharge 5000000 tax = 0 ∧
    calculate_surcharge 5000001 tax = tax * (10 / 100) := by
  constructor <;> norm_num [calculate_surcharge]

/-- C3: the mortgage payment for `(principal = 300000, rate = 6, years = 30)`
satisfies `payment * 12 * 30 > 300000`; but for `rate = 0` the source's
unguarded denominator `(1+0)^360 - 1 = 0` makes Python raise
`ZeroDivisionError` (embedded as `none`) instead of returning
`principal / (years * 12)` as the claim asserts. -/
theorem mortgage_payment_c3 :
    (∃ m : ℚ, calculate_mortgage_payment 300000 6 30 = some m ∧
      300000 < m * 12 * 30) ∧
    calculate_mortgage_payment 300000 0 30 = none := by
  constructor
  · refine ⟨300000 * ((6 : ℚ) / 12 / 100) * (1 + (6 : ℚ) / 12 / 100) ^ (360 : ℕ) /
        ((1 + (6 : ℚ) / 12 / 100) ^ (360 : ℕ) - 1), ?_, ?_⟩
    · simp only [calculate_mortgage_payment]
      norm_num
    · have h1 : (1 : ℚ) < (1 + (6 : ℚ) / 12 / 100) ^ (360 : ℕ) :=
        one_lt_pow₀ (by norm_num) (by norm_num)
      have hden : (0 : ℚ) < (1 + (6 : ℚ) / 12 / 100) ^ (360 : ℕ) - 1 := by linarith
      rw [div_mul_eq_mul_div, div_mul_eq_mul_div, lt_div_iff₀ hden]
      nlinarith [h1]
  · norm_num [calculate_mortgage_payment]

/-- C4 counterexample: the claim quantifies over *every* budgeting input
with `total_expenses > income`; at `income = -1, expenses = {}` the expense
total `0` exceeds the income, but the call fails with the decorator's
`ValidationError`, not with `DomainError`. -/
theorem budgeting_negative_income_not_domain_error :
    sumVals ([] : List (String × ℚ)) > (-1 : ℚ) ∧
    calculate_budgeting (-1) [] 0 = Except.error PyErr.validationError ∧
    PyErr.validationError ≠ PyErr.domainError := by
  refine ⟨by norm_num [sumVals], ?_, by decide⟩
  norm_num [calculate_budgeting]

/-- C4 amended: whenever the decorator's negativity check passes (the
supplied numeric keyword arguments `income` and `savings_goal` are
non-negative) and the expense total exceeds the income, `calculate_budgeting`
fails with the `"Expenses exceed income"` `ValueError` — the spec's
`DomainError` — and produces no result. -/
theorem budgeting_expenses_exceed_income_domain_error
    (income savings_goal : ℚ) (expenses : List (String × ℚ))
    (hinc : 0 ≤ income) (hsg : 0 ≤ savings_goal)
    (hexp : sumVals expenses > income) :
    calculate_budgeting income expenses savings_goal = Except.error PyErr.domainError := by
  unfold calculate_budgeting
  rw [if_neg (not_not_intro ⟨hinc, hsg⟩), if_pos hexp]

theorem budgeting_expenses_exceed_income_domain_error_witness :
    calculate_budgeting 100 [("rent", 200)] 0 = Except.error PyErr.domainError :=
  budgeting_expenses_exceed_income_domain_error 100 0 [("rent", 200)]
    (by norm_num) (by norm_num) (by norm_num [sumVals])

/-- C6 counterexample: at `(current_age, retirement_age, current_savings,
monthly_contribution, expected_return, inflation_rate) =
(30, 31, 100, 0, 0, 100)` — all inputs non-negative and
`retirement_age ≥ current_age` — the real return is `-1/2`, and the
returned `future_value` is `50`, strictly below
`current_savings = 100`, contradicting `future_value ≥ current_savings`. -/
theorem retirement_future_value_below_savings :
    (calculate_retirement 30 31 100 0 0 100 none).toOption.bind
        (fun c => calcNumPath c "savings_analysis" "future_value") = some 50 ∧
    (50 : ℚ) < 100 := by
  constructor
  · norm_num [calculate_retirement, optNonneg, calcNumPath, calcLookup,
      Except.toOption, Option.bind]
    simp [calcLookup]
  · norm_num

/-- C6 amended (spec-modelled projection/readiness helpers, see their doc
comments): for all non-negative consistent inputs with
`inflation_rate < expected_return` (so the real return is positive — when
they are equal the source divides by zero, and when inflation exceeds the
expected return the future value can fall below current savings) and
`current_savings + total contributions > 0` (otherwise
`savings_growth_multiple` divides by zero), `calculate_retirement` returns
a result whose `future_value` is at least `current_savings` and whose
`years_to_retirement` equals `retirement_age - current_age` exactly. -/
theorem retirement_growth_amended
    (current_age retirement_age : ℤ) (cs mc er ir : ℚ) (d : Option ℚ)
    (hca : 0 ≤ current_age) (hor : current_age ≤ retirement_age)
    (hcs : 0 ≤ cs) (hmc : 0 ≤ mc) (hir : 0 ≤ ir) (her : ir < er)
    (hd : optNonneg d = true)
    (hpos : 0 < cs + mc * 12 * ((retirement_age - current_age : ℤ) : ℚ)) :
    ∃ c, calculate_retirement current_age retirement_age cs mc er ir d = Except.ok c ∧
      calcNumPath c "timing" "years_to_retirement"
        = some ((retirement_age - current_age : ℤ) : ℚ) ∧
      ∃ fv, calcNumPath c "savings_analysis" "future_value" = some fv ∧ cs ≤ fv := by
  have her0 : 0 ≤ er := hir.trans her.le
  have hden : (0 : ℚ) < 1 + ir / 100 := by linarith
  have hnum : 1 + ir / 100 < 1 + er / 100 := by linarith
  have hA1 : (1 : ℚ) < (1 + er / 100) / (1 + ir / 100) := (one_lt_div hden).mpr hnum
  have hrr : 0 < (1 + er / 100) / (1 + ir / 100) - 1 := by linarith
  have hz : (1 : ℚ) ≤ ((1 + er / 100) / (1 + ir / 100)) ^ (retirement_age - current_age) :=
    one_le_zpow₀ hA1.le (sub_nonneg.mpr hor)
  have hfs : cs ≤ cs * ((1 + er / 100) / (1 + ir / 100)) ^ (retirement_age - current_age) :=
    le_mul_of_one_le_right hcs hz
  have hfc : 0 ≤ mc * 12 *
      ((((1 + er / 100) / (1 + ir / 100)) ^ (retirement_age - current_age) - 1) /
        ((1 + er / 100) / (1 + ir / 100) - 1)) := by
    apply mul_nonneg (by positivity)
    apply div_nonneg (by linarith) hrr.le
  have hval : ¬¬(0 ≤ current_age ∧ 0 ≤ retirement_age ∧ 0 ≤ cs ∧ 0 ≤ mc ∧
      0 ≤ er ∧ 0 ≤ ir ∧ optNonneg d = true) :=
    not_not_intro ⟨hca, hca.trans hor, hcs, hmc, her0, hir, hd⟩
  simp only [calculate_retirement]
  rw [if_neg hval, if_neg (ne_of_gt hrr), if_neg (ne_of_gt hpos)]
  refine ⟨_, rfl, ?_, ?_⟩
  · simp [calcNumPath, calcLookup]
  · refine ⟨cs * ((1 + er / 100) / (1 + ir / 100)) ^ (retirement_age - current_age) +
      mc * 12 * ((((1 + er / 100) / (1 + ir / 100)) ^ (retirement_age - current_age) - 1) /
        ((1 + er / 100) / (1 + ir / 100) - 1)), ?_, ?_⟩
    · simp [calcNumPath, calcLookup]
    · exact hfs.trans (le_add_of_nonneg_right hfc)

theorem retirement_growth_amended_witness :
    ∃ c, calculate_retirement 30 65 1000 100 7 3 none = Except.ok c ∧
      calcNumPath c "timing" "years_to_retirement" = some ((65 - 30 : ℤ) : ℚ) ∧
      ∃ fv, calcNumPath c "savings_analysis" "future_value" = some fv ∧ (1000 : ℚ) ≤ fv :=
  retirement_growth_amended 30 65 1000 100 7 3 none (by norm_num) (by norm_num)
    (by norm_num) (by norm_num) (by norm_num) (by norm_num) rfl (by norm_num)

/-- Auxiliary: the first-match scan returns either `"general"` or the name
of some entry of its table. -/
theorem detectAux_mem (table : List (String × List String)) (q : List Char) :
    detectAux table q = "general" ∨ detectAux table q ∈ table.map Prod.fst := by
  induction table with
  | nil => exact Or.inl rfl
  | cons p rest ih =>
    obtain ⟨s, kws⟩ := p
    by_cases h : kws.any (fun kw => containsSub q kw)
    · right
      simp [detectAux, h]
    · rcases ih with hg | hm
      · left
        simpa [detectAux, h] using hg
      · right
        simp only [detectAux, h, if_false, Bool.false_eq_true, List.map_cons]
        exact List.mem_cons_of_mem _ hm

/-- Auxiliary: when no keyword of any entry occurs in the query, the scan
falls through to `"general"`. -/
theorem detectAux_no_match (table : List (String × List String)) (q : List Char)
    (h : ∀ p ∈ table, ∀ kw ∈ p.2, containsSub q kw = false) :
    detectAux table q = "general" := by
  induction table with
  | nil => rfl
  | cons p rest ih =>
    obtain ⟨s, kws⟩ := p
    have hany : kws.any (fun kw => containsSub q kw) = false := by
      rw [List.any_eq_false]
      intro kw hkw
      simpa using h (s, kws) (List.mem_cons_self _ _) kw hkw
    simp only [detectAux, hany, Bool.false_eq_true, if_false]
    exact ih (fun p hp => h p (List.mem_cons_of_mem _ hp))

/-- C8: the classifier is a pure function, hence deterministic under
repetition; the query `"retire"` classifies as `"retirement"`; and any
query in which no keyword of any scenario occurs classifies as
`"general"`. -/
theorem classifier_deterministic_retire_general :
    (∀ q : String, detect_financial_scenario q = detect_financial_scenario q) ∧
    detect_financial_scenario "retire" = "retirement" ∧
    (∀ q : String,
      (∀ p ∈ scenario_keywords, ∀ kw ∈ p.2,
        containsSub (lowerChars q.data) kw = false) →
      detect_financial_scenario q = "general") := by
  refine ⟨fun q => rfl, by decide, fun q h => ?_⟩
  exact detectAux_no_match scenario_keywords (lowerChars q.data) h

theorem classifier_deterministic_retire_general_witness :
    detect_financial_scenario "hello there" = "general" :=
  classifier_deterministic_retire_general.2.2 "hello there" (by decide)

/-- C10: the classifier can never return `"budgeting"` — that entry is
commented out of the keyword table — so queries made only of budgeting
vocabulary (`"budget"`, `"expenses"`) classify as `"general"`. -/
theorem classifier_never_budgeting :
    (∀ q : String, detect_financial_scenario q ≠ "budgeting") ∧
    detect_financial_scenario "budget" = "general" ∧
    detect_financial_scenario "expenses" = "general" := by
  refine ⟨fun q hq => ?_, by decide, by decide⟩
  rcases detectAux_mem scenario_keywords (lowerChars q.data) with h | h
  · rw [detect_financial_scenario] at hq
    rw [hq] at h
    exact absurd h (by decide)
  · rw [detect_financial_scenario] at hq
    rw [hq] at h
    revert h
    decide

/-- The C1 scenario query of §8 of the spec. -/
def c1_question : String :=
  "I earn 1500000 per annum. Calculate my yearly income tax based on new regime"

/-- The C1 caller-supplied context. -/
def c1_context : Kwargs :=
  [("annual_income", PyVal.num 1500000), ("tax_regime", PyVal.str "new")]

/-- C1: the end-to-end tax query does classify as a tax scenario
(`"tax_planning"`) and does reach `calculate_tax_planning` with
`annual_income = 1500000, tax_regime = "new"`, but the calculator's
`super().calculate_tax_calculation_scenarios(...)` call raises
`AttributeError` (the class has no base implementing it), so for every
backend/visualization/report collaborator and every starting memory,
`query` propagates the exception instead of returning a response with
`old_regime`/`new_regime` calculations. -/
theorem tax_query_raises_attribute_error
    (chain : String → String → Except PyErr ChainResult)
    (vizSvc : String → Calculations → Except PyErr (Option Viz))
    (repSvc : String → String → String → Calculations → Option Viz → Except PyErr String)
    (mem : List Msg) :
    detect_financial_scenario c1_question = "tax_planning" ∧
    queryEngine chain vizSvc repSvc c1_question (some c1_context) mem
      = (mem, Except.error (PyErr.attributeError "calculate_tax_calculation_scenarios")) := by
  constructor
  · decide
  · have hcalc : calcStep (detect_financial_scenario c1_question) (some c1_context)
        = Except.error (PyErr.attributeError "calculate_tax_calculation_scenarios") := by
      rfl
    simp only [queryEngine, hcalc]

/-- C2: whenever the calculation stage succeeds and the chain call (the
completion backend) raises `BackendError`, `query` propagates the error and
the conversation memory is exactly what it was before the call — no
partial turn is appended (the only memory write in `query` comes after the
chain call returns). -/
theorem query_backend_failure_preserves_memory
    (chain : String → String → Except PyErr ChainResult)
    (vizSvc : String → Calculations → Except PyErr (Option Viz))
    (repSvc : String → String → String → Calculations → Option Viz → Except PyErr String)
    (question : String) (context : Option Kwargs) (mem : List Msg)
    (hcalc : ∃ c, calcStep (detect_financial_scenario question) context = Except.ok c)
    (hchain : ∀ q ctx, chain q ctx = Except.error PyErr.backendError) :
    queryEngine chain vizSvc repSvc question context mem
      = (mem, Except.error PyErr.backendError) := by
  obtain ⟨c, hc⟩ := hcalc
  simp only [queryEngine, hc, hchain]

theorem query_backend_failure_preserves_memory_witness :
    queryEngine (fun _ _ => Except.error PyErr.backendError)
      (fun _ _ => Except.error PyErr.artifactError)
      (fun _ _ _ _ _ => Except.error PyErr.artifactError)
      "hello" none [] = ([], Except.error PyErr.backendError) :=
  query_backend_failure_preserves_memory _ _ _ "hello" none []
    ⟨[], rfl⟩ (fun _ _ => rfl)

/-- C9: when classification and calculation succeed and the chain returns
an answer, failures raised inside visualization generation and report
generation are swallowed: the query still succeeds, the response carries
the answer and sources, and the `visualizations`/`report_path` fields are
`none`. -/
theorem query_artifact_failures_nonfatal
    (chain : String → String → Except PyErr ChainResult)
    (vizSvc : String → Calculations → Except PyErr (Option Viz))
    (repSvc : String → String → String → Calculations → Option Viz → Except PyErr String)
    (question : String) (context : Option Kwargs) (mem : List Msg)
    (ans : String) (srcs : List String)
    (hcalc : ∃ c, calcStep (detect_financial_scenario question) context = Except.ok c)
    (hchain : ∀ q ctx, chain q ctx = Except.ok ⟨ans, srcs⟩)
    (hviz : ∀ s c, vizSvc s c = Except.error PyErr.artifactError)
    (hrep : ∀ s q a c v, repSvc s q a c v = Except.error PyErr.artifactError) :
    ∃ resp : QueryResponse,
      queryEngine chain vizSvc repSvc question context mem
        = (mem ++ [Msg.human question, Msg.ai ans], Except.ok resp) ∧
      resp.answer = ans ∧ resp.sources = srcs ∧
      resp.visualizations = none ∧ resp.report_path = none := by
  obtain ⟨c, hc⟩ := hcalc
  have hv : generate_visualizations vizSvc (detect_financial_scenario question) c = none := by
    unfold generate_visualizations
    split
    · rfl
    · rw [hviz]
  have hr : generate_report repSvc (detect_financial_scenario question) question ans c none
      = none := by
    unfold generate_report
    split
    · rfl
    · rw [hrep]
  refine ⟨{ answer := ans
            sources := srcs
            scenario_type := detect_financial_scenario question
            calculations := c
            chat_history := mem ++ [Msg.human question, Msg.ai ans]
            follow_up_questions :=
              generate_follow_up_questions (detect_financial_scenario question) question c
            visualizations := none
            report_path := none
            is_followup := !(mem ++ [Msg.human question, Msg.ai ans]).isEmpty },
         ?_, rfl, rfl, rfl, rfl⟩
  simp only [queryEngine, hc, hchain, hv, hr]

theorem query_artifact_failures_nonfatal_witness :
    ∃ resp : QueryResponse,
      queryEngine (fun _ _ => Except.ok ⟨"the answer", ["doc1"]⟩)
        (fun _ _ => Except.error PyErr.artifactError)
        (fun _ _ _ _ _ => Except.error PyErr.artifactError)
        "hello" none []
        = ([Msg.human "hello", Msg.ai "the answer"], Except.ok resp) ∧
      resp.answer = "the answer" ∧ resp.sources = ["doc1"] ∧
      resp.visualizations = none ∧ resp.report_path = none := by
  have h := query_artifact_failures_nonfatal
    (fun _ _ => Except.ok ⟨"the answer", ["doc1"]⟩)
    (fun _ _ => Except.error PyErr.artifactError)
    (fun _ _ _ _ _ => Except.error PyErr.artifactError)
    "hello" none [] "the answer" ["doc1"]
    ⟨[], rfl⟩ (fun _ _ => rfl) (fun _ _ => rfl) (fun _ _ _ _ _ => rfl)
  simpa using h
